import Mathlib

/-!
Verification of the Guard patrol check-in service against its specification.

The development shallowly embeds the Python sources:
  * `src/services/tomtom_service.py` — coordinate validation, distance
    computation and enhanced reverse geocoding (`TomTomService`);
  * `src/services/sheets_service_new.py` — the write-behind dispatcher
    (`SheetsService`): queueing of scan rows and the background flush worker;
  * `src/routes/supervisor_routes_full.py` — automatic QR-location creation.

Machine floats are modelled by `ℚ` (for the executable service code) and by
`ℝ` (for the geodesic distance, which lives in the external `geopy` library
and is modelled from the specification's description as a great-circle
distance).  Network interaction is modelled by explicit oracles giving the
replies of the remote endpoints, and the embeddings additionally return the
number of remote calls performed, so that "no network call" claims are
statable.
-/

/-! ## Rounding

`round(x, 2)` in Python rounds to two decimal places with round-half-to-even
tie breaking.  We embed it generically over any linear ordered field with a
floor so that both the `ℚ` and the `ℝ` developments share it. -/

/-- Python's banker's rounding of `x` to the nearest integer:
round half to even. -/
def roundHalfEven {α : Type} [LinearOrderedField α] [FloorRing α] (x : α) : ℤ :=
  if x - (⌊x⌋ : α) < 1/2 then ⌊x⌋
  else if (1 : α)/2 < x - (⌊x⌋ : α) then ⌊x⌋ + 1
  else if ⌊x⌋ % 2 = 0 then ⌊x⌋ else ⌊x⌋ + 1

/-- Python's `round(x, 2)`: round to two decimal places. -/
def round2 {α : Type} [LinearOrderedField α] [FloorRing α] (x : α) : α :=
  (roundHalfEven (100 * x) : α) / 100

theorem roundHalfEven_zero {α : Type} [LinearOrderedField α] [FloorRing α] :
    roundHalfEven (0 : α) = 0 := by
  simp [roundHalfEven]

theorem round2_zero {α : Type} [LinearOrderedField α] [FloorRing α] :
    round2 (0 : α) = 0 := by
  simp [round2, roundHalfEven]

/-! ## `TomTomService.calculate_distance`

```python
def calculate_distance(self, lat1, lng1, lat2, lng2) -> float:
    try:
        distance = geodesic((lat1, lng1), (lat2, lng2)).meters
        return round(distance, 2)
    except Exception as e:
        logger.error(...)
        return 0.0
```

The geodesic primitive is the external `geopy` library; we keep it as a
parameter `g` returning `Option α` (`none` models the primitive raising an
exception, caught by the `except` arm). -/

/-- Embedding of `TomTomService.calculate_distance`: round the geodesic
distance to 2 decimals, or return `0.0` when the primitive raises. -/
def calculate_distance {α : Type} [LinearOrderedField α] [FloorRing α]
    (g : α → α → α → α → Option α) (lat1 lng1 lat2 lng2 : α) : α :=
  match g lat1 lng1 lat2 lng2 with
  | some d => round2 d
  | none => 0

/-- Modelled from the spec: the distance between two coordinates is the
"great-circle (geodesic) distance" in meters.  The concrete geodesic lives in
the external `geopy` library (not part of this repository); we model it by
the spherical great-circle formula (law of cosines) on a sphere of the mean
earth radius, in meters. -/
noncomputable def greatCircleDist (lat1 lng1 lat2 lng2 : ℝ) : ℝ :=
  6371000 * Real.arccos
    (Real.sin (lat1 * Real.pi / 180) * Real.sin (lat2 * Real.pi / 180) +
     Real.cos (lat1 * Real.pi / 180) * Real.cos (lat2 * Real.pi / 180) *
       Real.cos (lng2 * Real.pi / 180 - lng1 * Real.pi / 180))

/-- The non-raising geodesic primitive built from `greatCircleDist`. -/
noncomputable def gcPrim : ℝ → ℝ → ℝ → ℝ → Option ℝ :=
  fun lat1 lng1 lat2 lng2 => some (greatCircleDist lat1 lng1 lat2 lng2)

theorem greatCircleDist_symm (a b c d : ℝ) :
    greatCircleDist a b c d = greatCircleDist c d a b := by
  unfold greatCircleDist
  congr 2
  rw [show d * Real.pi / 180 - b * Real.pi / 180 =
        -(b * Real.pi / 180 - d * Real.pi / 180) by ring, Real.cos_neg]
  ring

theorem greatCircleDist_self (a b : ℝ) : greatCircleDist a b a b = 0 := by
  unfold greatCircleDist
  rw [sub_self, Real.cos_zero, mul_one, ← pow_two, ← pow_two,
    Real.sin_sq_add_cos_sq, Real.arccos_one, mul_zero]

/-! ## Geofence evaluation

The guard scan route that combines `calculate_distance` with the radius
check is not present under `src/`; it is modelled from the spec. -/

/-- Modelled from the spec: `evaluate(deviceCoord, anchorCoord, radiusMeters)
-> {distanceMeters, withinRadius}` with
`withinRadius = distanceMeters <= radiusMeters`, the distance being
`calculate_distance` of the device and anchor coordinates.  The scan route
implementing this is absent from `src/`. -/
def evaluate {α : Type} [LinearOrderedField α] [FloorRing α]
    (g : α → α → α → α → Option α) (devLat devLng ancLat ancLng radius : α) :
    α × Prop :=
  (calculate_distance g devLat devLng ancLat ancLng,
   calculate_distance g devLat devLng ancLat ancLng ≤ radius)

/-! ## Claim theorems for the distance layer -/

theorem calculate_distance_self_zero (p q : ℝ) :
    calculate_distance gcPrim p q p q = 0 := by
  show round2 (greatCircleDist p q p q) = 0
  rw [greatCircleDist_self, round2_zero]

/-- C5: geofence evaluation computes the distance as the great-circle
(geodesic) distance rounded to 2 decimal places, and reports `withinRadius`
true exactly when that rounded distance is at most the radius in meters. -/
theorem C5_evaluate_rounded_geodesic (devLat devLng ancLat ancLng radius : ℝ) :
    (evaluate gcPrim devLat devLng ancLat ancLng radius).1 =
      round2 (greatCircleDist devLat devLng ancLat ancLng) ∧
    ((evaluate gcPrim devLat devLng ancLat ancLng radius).2 ↔
      round2 (greatCircleDist devLat devLng ancLat ancLng) ≤ radius) := by
  exact ⟨rfl, Iff.rfl⟩

/-- C6: the computed distance is symmetric, and the distance from a
coordinate to itself is `0`. -/
theorem C6_distance_symm_self (a b c d : ℝ) :
    calculate_distance gcPrim a b c d = calculate_distance gcPrim c d a b ∧
    calculate_distance gcPrim a b a b = 0 := by
  constructor
  · show round2 (greatCircleDist a b c d) = round2 (greatCircleDist c d a b)
    rw [greatCircleDist_symm]
  · exact calculate_distance_self_zero a b

/-- C10: `calculate_distance` is total; when the underlying geodesic
primitive fails it returns `0.0`, the same value it returns for two identical
coordinates, and that value is within every non-negative radius. -/
theorem C10_failure_returns_zero (g : ℝ → ℝ → ℝ → ℝ → Option ℝ)
    (lat1 lng1 lat2 lng2 : ℝ) (hfail : g lat1 lng1 lat2 lng2 = none) :
    calculate_distance g lat1 lng1 lat2 lng2 = 0 ∧
    (∀ p q : ℝ, calculate_distance g lat1 lng1 lat2 lng2 =
      calculate_distance gcPrim p q p q) ∧
    (∀ radius : ℝ, 0 ≤ radius →
      (evaluate g lat1 lng1 lat2 lng2 radius).2) := by
  have hz : calculate_distance g lat1 lng1 lat2 lng2 = 0 := by
    unfold calculate_distance
    rw [hfail]
  refine ⟨hz, ?_, ?_⟩
  · intro p q
    rw [hz]
    exact (calculate_distance_self_zero p q).symm
  · intro radius hr
    show calculate_distance g lat1 lng1 lat2 lng2 ≤ radius
    rw [hz]
    exact hr

/-- C10 witness: a concrete failing geodesic primitive, concrete
coordinates and radius `5`. -/
theorem C10_failure_returns_zero_witness :
    calculate_distance (fun _ _ _ _ => (none : Option ℝ)) 1 2 3 4 = 0 ∧
    calculate_distance (fun _ _ _ _ => (none : Option ℝ)) 1 2 3 4 =
      calculate_distance gcPrim 1 2 1 2 ∧
    (evaluate (fun _ _ _ _ => (none : Option ℝ)) 1 2 3 4 5).2 := by
  have h := C10_failure_returns_zero (fun _ _ _ _ => (none : Option ℝ))
    1 2 3 4 rfl
  exact ⟨h.1, h.2.1 1 2, h.2.2 5 (by norm_num)⟩

/-! ## `TomTomService` coordinate validation and reverse geocoding

```python
def validate_india_coordinates(self, latitude, longitude) -> bool:
    return (self.india_bounds["min_lat"] <= latitude <= self.india_bounds["max_lat"] and
            self.india_bounds["min_lon"] <= longitude <= self.india_bounds["max_lon"])
```
with bounds 6.0/37.0 (lat) and 68.0/97.0 (lon). -/

/-- Embedding of `TomTomService.validate_india_coordinates`. -/
def validate_india_coordinates (latitude longitude : ℚ) : Bool :=
  decide (6 ≤ latitude ∧ latitude ≤ 37 ∧ 68 ≤ longitude ∧ longitude ≤ 97)

/-- Python truthiness of an optional string (`None` and `""` are falsy). -/
def pyTruthy : Option String → Option String
  | none => none
  | some s => if s = "" then none else some s

/-- `startsWith n h`: the char list `n` is an initial segment of `h`. -/
def startsWith : List Char → List Char → Bool
  | [], _ => true
  | _ :: _, [] => false
  | a :: as, b :: bs => a = b && startsWith as bs

/-- `containsSub h n`: the char list `n` occurs contiguously in `h`
(Python's `n in h` on strings). -/
def containsSub : List Char → List Char → Bool
  | [], n => n.isEmpty
  | h :: t, n => startsWith n (h :: t) || containsSub t n

/-- Python's substring test `needle in hay`. -/
def substrB (needle hay : String) : Bool :=
  containsSub hay.data needle.data

/-- The POI record returned by `search_poi`; only `name` is consumed by
`reverse_geocode_enhanced`, the other fields of the Python dict (category,
address, distance) are not read again. -/
structure PoiData where
  name : Option String
deriving DecidableEq

/-- One element of the reverse-geocode reply's `addresses[...]["address"]`. -/
structure AddrData where
  id : Option String
  streetName : Option String
  municipality : Option String
  countrySecondarySubdivision : Option String
  countrySubdivision : Option String
  freeformAddress : Option String
deriving DecidableEq

/-- Replies of the two TomTom endpoints; `Except.error e` models the HTTP
call raising an exception with message `e` (timeout, non-2xx status, ...). -/
structure GeoOracle where
  poiReply : Except String (List PoiData)
  revReply : Except String (List AddrData)

/-- Embedding of `TomTomService.search_poi`.  Besides the result it returns
the number of remote calls performed.  Without an API key no call is made;
any exception of the call is caught and yields `None`; an empty result list
also yields `None`. -/
def search_poi (hasKey : Bool) (o : GeoOracle) : Option PoiData × Nat :=
  if ¬hasKey then (none, 0)
  else
    match o.poiReply with
    | Except.error _ => (none, 1)
    | Except.ok [] => (none, 1)
    | Except.ok (p :: _) => (some p, 1)

/-- The generic POI-name fragments filtered out when building the address. -/
def genericNames : List String := ["unnamed", "road", "highway", "street"]

/-- The POI contribution to `address_parts`: the POI name, unless absent,
empty, or containing a generic fragment (case-insensitively). -/
def poiParts (poi : Option PoiData) : List String :=
  match poi with
  | none => []
  | some p =>
    match pyTruthy p.name with
    | none => []
    | some n =>
      if genericNames.any (fun g => substrB g n.toLower) then [] else [n]

/-- Append one optional address field to `address_parts`, skipping falsy
values and values of which some existing part is already a substring. -/
def addPart (parts : List String) (field : Option String) : List String :=
  match pyTruthy field with
  | none => parts
  | some v => if parts.any (fun p => substrB p v) then parts else parts ++ [v]

/-- The `address_parts` assembly of `reverse_geocode_enhanced`: POI name,
then street, municipality, district and state, joined by `", "`, falling
back to `freeformAddress` (default `"Address not available"`). -/
def buildAddress (poi : Option PoiData) (a : AddrData) : String :=
  let parts :=
    addPart (addPart (addPart (addPart (poiParts poi) a.streetName)
      a.municipality) a.countrySecondarySubdivision) a.countrySubdivision
  if parts.isEmpty then a.freeformAddress.getD "Address not available"
  else String.intercalate ", " parts

/-- Embedding of `TomTomService.reverse_geocode_enhanced`, returning the
formatted-address component of its result together with the number of remote
calls performed.  (The second component of the Python return value, the raw
audit payload, is not consumed by the claims and is not modelled.)

```python
if not self.api_key:
    return None, None
if not self.validate_india_coordinates(latitude, longitude):
    return "Location outside India", None
try:
    poi_data = await self.search_poi(latitude, longitude, radius=50)
    ... reverse geocode call ...
    if data.get("addresses") and len(data["addresses"]) > 0:
        ... build address ...
        return formatted_address, response_data
    return "Address not found", None
except Exception as e:
    return f"Error: {str(e)}", None
``` -/
def reverse_geocode_enhanced (hasKey : Bool) (latitude longitude : ℚ)
    (o : GeoOracle) : Option String × Nat :=
  if ¬hasKey then (none, 0)
  else if ¬(validate_india_coordinates latitude longitude) then
    (some "Location outside India", 0)
  else
    let poiRes := search_poi hasKey o
    match o.revReply with
    | Except.error e => (some ("Error: " ++ e), poiRes.2 + 1)
    | Except.ok [] => (some "Address not found", poiRes.2 + 1)
    | Except.ok (a :: _) => (some (buildAddress poiRes.1 a), poiRes.2 + 1)

/-- An oracle whose endpoints both answer with empty result lists. -/
def emptyOracle : GeoOracle :=
  { poiReply := Except.ok [], revReply := Except.ok [] }

/-- C4 counterexample: with the API key configured, an in-region coordinate
whose reverse-geocode reply holds no addresses yields the non-null
placeholder string `"Address not found"`, not a null address. -/
theorem C4_counterexample_nonnull_placeholder :
    (reverse_geocode_enhanced true 29 77 emptyOracle).1 =
      some "Address not found" ∧
    some "Address not found" ≠ (none : Option String) := by
  exact ⟨rfl, by simp⟩

/-- C4 (amended): the enricher distinguishes the provider-error outcome from
the no-address outcome, but by returning distinct non-null strings
(`"Error: <message>"` vs `"Address not found"`) rather than a null address in
both cases. -/
theorem C4_distinct_outcome_strings (latitude longitude : ℚ) (o : GeoOracle)
    (e : String) (hv : validate_india_coordinates latitude longitude = true) :
    (o.revReply = Except.error e →
      (reverse_geocode_enhanced true latitude longitude o).1 =
        some ("Error: " ++ e)) ∧
    (o.revReply = Except.ok [] →
      (reverse_geocode_enhanced true latitude longitude o).1 =
        some "Address not found") ∧
    ("Error: " ++ e) ≠ "Address not found" := by
  refine ⟨?_, ?_, ?_⟩
  · intro h
    simp [reverse_geocode_enhanced, hv, h]
  · intro h
    simp [reverse_geocode_enhanced, hv, h]
  · intro hcontra
    have h2 := congrArg String.data hcontra
    rw [String.data_append] at h2
    have he : ("Error: ").data = ['E', 'r', 'r', 'o', 'r', ':', ' '] := rfl
    have ha : ("Address not found").data =
        'A' :: ("ddress not found").data := rfl
    rw [he, ha, List.cons_append] at h2
    injection h2 with h3 _
    exact absurd h3 (by decide)

/-- C4 witness: concrete in-region coordinate with a timeout-style error
reply and, separately, an empty reply. -/
theorem C4_distinct_outcome_strings_witness :
    (reverse_geocode_enhanced true 29 77
      { poiReply := Except.ok [], revReply := Except.error "timed out" }).1 =
      some ("Error: " ++ "timed out") ∧
    ("Error: " ++ "timed out") ≠ "Address not found" := by
  have h := C4_distinct_outcome_strings 29 77
    { poiReply := Except.ok [], revReply := Except.error "timed out" }
    "timed out" (by decide)
  exact ⟨h.1 rfl, h.2.2⟩

/-- C7 counterexample: with no API key configured, a coordinate outside the
bounding box yields `None` (provider unavailable), not the
`"Location outside India"` unsupported-region result — though still with no
network call. -/
theorem C7_counterexample_no_key :
    (reverse_geocode_enhanced false 50 50 emptyOracle).1 = none ∧
    (reverse_geocode_enhanced false 50 50 emptyOracle).2 = 0 ∧
    (none : Option String) ≠ some "Location outside India" := by
  exact ⟨rfl, rfl, by simp⟩

/-- C7 (amended): for every coordinate outside the configured bounding box
no network call is made, and — provided the provider API key is configured —
the call short-circuits to the `"Location outside India"` unsupported-region
result. -/
theorem C7_outside_box_short_circuit (hasKey : Bool) (latitude longitude : ℚ)
    (o : GeoOracle)
    (hout : validate_india_coordinates latitude longitude = false) :
    (reverse_geocode_enhanced hasKey latitude longitude o).2 = 0 ∧
    (hasKey = true →
      (reverse_geocode_enhanced hasKey latitude longitude o).1 =
        some "Location outside India") := by
  cases hasKey
  · simp [reverse_geocode_enhanced]
  · simp [reverse_geocode_enhanced, hout]

/-- C7 witness: keyed service, coordinate (50, 50) north of the box. -/
theorem C7_outside_box_short_circuit_witness :
    (reverse_geocode_enhanced true 50 50 emptyOracle).2 = 0 ∧
    (reverse_geocode_enhanced true 50 50 emptyOracle).1 =
      some "Location outside India" := by
  have h := C7_outside_box_short_circuit true 50 50 emptyOracle (by decide)
  exact ⟨h.1, h.2 rfl⟩

/-! ## `SheetsService` — the write-behind dispatcher

From `src/services/sheets_service_new.py`.  The queue is a plain
`queue.Queue()` — constructed with no `maxsize` argument; `put` appends at
the back, `get_nowait` removes at the front.  The worker thread repeatedly
collects up to 50 items, processes them, and sleeps for the configured
interval.  Wall-clock timestamp formatting (`strftime`, IST conversion) is
not modelled: the formatted timestamp enters the row as a given string. -/

/-- One element of `update_queue`, as built by `append_scan_to_sheet`. -/
structure UpdateItem where
  tab_name : String
  row_data : List String
  timestamp : Nat
deriving DecidableEq

/-- The mutable fields of `SheetsService` relevant to the dispatcher:
`connected` models `self.client and self.spreadsheet` being non-`None`. -/
structure SheetsState where
  connected : Bool
  update_queue : List UpdateItem
  is_running : Bool
deriving DecidableEq

/-- The scan payload consumed by `append_scan_to_sheet` via
`scan_data.get(...)`; absent keys are `none`.  `tsString` stands for the
already-formatted IST timestamp string. -/
structure ScanData where
  supervisorArea : Option String
  guardName : Option String
  guardEmail : Option String
  guardEmployeeCode : Option String
  supervisorName : Option String
  supervisorEmail : Option String
  qrId : Option String
  locationLabel : Option String
  scannedLatitude : Option String
  scannedLongitude : Option String
  address : Option String
  distanceFromQR : Option String
  isWithinRadius : Bool
  scanStatus : Option String
  notes : Option String
  tsString : String
deriving DecidableEq

/-- `tab_name = f"{supervisor_area}_SCANS"` with
`supervisor_area = scan_data.get("supervisorArea", "UNKNOWN").upper()`. -/
def scan_tab_name (scan : ScanData) : String :=
  (scan.supervisorArea.getD "UNKNOWN").toUpper ++ "_SCANS"

/-- The 16-column `row_data` list built by `append_scan_to_sheet`. -/
def scan_row_data (scan : ScanData) : List String :=
  [scan.tsString,
   scan.guardName.getD "",
   scan.guardEmail.getD "",
   scan.guardEmployeeCode.getD "",
   scan.supervisorName.getD "",
   scan.supervisorEmail.getD "",
   scan.supervisorArea.getD "",
   scan.qrId.getD "",
   scan.locationLabel.getD "",
   scan.scannedLatitude.getD "",
   scan.scannedLongitude.getD "",
   scan.address.getD "",
   scan.distanceFromQR.getD "",
   if scan.isWithinRadius then "Yes" else "No",
   scan.scanStatus.getD "SUCCESS",
   scan.notes.getD ""]

/-- The `update_item` dict enqueued by `append_scan_to_sheet`. -/
def mkUpdateItem (scan : ScanData) (now : Nat) : UpdateItem :=
  { tab_name := scan_tab_name scan, row_data := scan_row_data scan,
    timestamp := now }

/-- Embedding of `SheetsService.append_scan_to_sheet`: when the service is
not connected it returns `False` and enqueues nothing; otherwise it puts the
update item on the (unbounded) queue and returns `True`.  The `Queue.put`
call is `put` without timeout on a queue of unlimited capacity, so the
function always returns without blocking. -/
def append_scan_to_sheet (s : SheetsState) (scan : ScanData) (now : Nat) :
    SheetsState × Bool :=
  if ¬s.connected then (s, false)
  else ({ s with update_queue := s.update_queue ++ [mkUpdateItem scan now] },
        true)

/-- `n` successive calls of `append_scan_to_sheet` with the same payload. -/
def enqueueN (scan : ScanData) (now : Nat) : Nat → SheetsState → SheetsState
  | 0, s => s
  | n + 1, s => enqueueN scan now n (append_scan_to_sheet s scan now).1

/-- Outcome of handling one queued item inside `_process_batch_updates`:
`noWorksheet` models `_get_or_create_worksheet` returning `None` (its own
exceptions are caught internally), `raiseErr` models `append_row` raising,
`ok` a successful row append. -/
inductive AppendOutcome
  | ok
  | noWorksheet
  | raiseErr
deriving DecidableEq

/-- The external ledger: what happens when the worker handles an item. -/
structure LedgerOracle where
  outcome : UpdateItem → AppendOutcome

/-- Embedding of `SheetsService._process_batch_updates`: iterate over the
batch; falsy `tab_name`/`row_data` are skipped, a missing worksheet is
skipped, a raising `append_row` aborts the remaining loop (the outer
`except` catches and only logs).  Returns the list of `append_row`
invocations made, in order, plus whether the loop was aborted. -/
def process_batch_updates (o : LedgerOracle) : List UpdateItem →
    List UpdateItem × Bool
  | [] => ([], false)
  | item :: rest =>
    if item.tab_name = "" ∨ item.row_data = [] then
      process_batch_updates o rest
    else
      match o.outcome item with
      | AppendOutcome.noWorksheet => process_batch_updates o rest
      | AppendOutcome.ok =>
        let r := process_batch_updates o rest
        (item :: r.1, r.2)
      | AppendOutcome.raiseErr => ([item], true)

/-- One iteration of `SheetsService._background_update_worker`: collect up to
50 items off the front of the queue (`get_nowait` in a loop bounded by
`len(batch_updates) < 50`), then process them.  The removed batch is never
put back, whatever `process_batch_updates` does. -/
def workerCycle (o : LedgerOracle) (s : SheetsState) :
    SheetsState × (List UpdateItem × Bool) :=
  ({ s with update_queue := s.update_queue.drop 50 },
   process_batch_updates o (s.update_queue.take 50))

/-- Embedding of `SheetsService.stop_background_updates`: set
`is_running = False` and `join` the worker with a 5-second timeout.  Nothing
else changes: the queue is untouched and enqueuing is not disabled. -/
def stop_background_updates (s : SheetsState) : SheetsState :=
  { s with is_running := false }

/-- A sample scan payload with every optional key absent. -/
def scan0 : ScanData :=
  { supervisorArea := none, guardName := none, guardEmail := none,
    guardEmployeeCode := none, supervisorName := none,
    supervisorEmail := none, qrId := none, locationLabel := none,
    scannedLatitude := none, scannedLongitude := none, address := none,
    distanceFromQR := none, isWithinRadius := false, scanStatus := none,
    notes := none, tsString := "01-01-2025 00:00:00" }

/-- A connected service with an empty queue and a running worker. -/
def sheets0 : SheetsState :=
  { connected := true, update_queue := [], is_running := true }

theorem enqueueN_connected_length (scan : ScanData) (now : Nat) :
    ∀ (n : Nat) (s : SheetsState), s.connected = true →
      (enqueueN scan now n s).update_queue.length =
        s.update_queue.length + n := by
  intro n
  induction n with
  | zero => intro s _; rfl
  | succ n ih =>
    intro s hs
    show (enqueueN scan now n
      (append_scan_to_sheet s scan now).1).update_queue.length = _
    rw [ih (append_scan_to_sheet s scan now).1
      (by simp [append_scan_to_sheet, hs])]
    simp [append_scan_to_sheet, hs]
    omega

/-- C1 counterexample: the queue is a plain unbounded `Queue()` — no
capacity bounds the queue depth: for every claimed capacity some sequence of
enqueues exceeds it. -/
theorem C1_counterexample_unbounded_queue :
    ¬ ∃ capacity : Nat, ∀ n : Nat,
      (enqueueN scan0 0 n sheets0).update_queue.length ≤ capacity := by
  rintro ⟨cap, h⟩
  have hlen := h (cap + 1)
  rw [enqueueN_connected_length scan0 0 (cap + 1) sheets0 rfl] at hlen
  simp [sheets0] at hlen

/-- C1 (amended): `append_scan_to_sheet` pushes onto an unbounded queue: it
always returns immediately (`True` with the item appended at the back when
the service is connected, `False` and no change otherwise), never blocks and
never drops or rejects an item for capacity reasons — so the queue depth is
unbounded rather than capped by a configured capacity. -/
theorem C1_enqueue_nonblocking_unbounded (s : SheetsState) (scan : ScanData)
    (now : Nat) :
    (append_scan_to_sheet s scan now).1.update_queue =
      (if s.connected then s.update_queue ++ [mkUpdateItem scan now]
       else s.update_queue) ∧
    (append_scan_to_sheet s scan now).2 = s.connected ∧
    (append_scan_to_sheet s scan now).1.connected = s.connected := by
  by_cases hs : s.connected <;>
    simp [append_scan_to_sheet, hs]

theorem process_batch_calls_le (o : LedgerOracle) :
    ∀ l : List UpdateItem, (process_batch_updates o l).1.length ≤ l.length := by
  intro l
  induction l with
  | nil => simp [process_batch_updates]
  | cons item rest ih =>
    simp only [process_batch_updates]
    by_cases h1 : item.tab_name = "" ∨ item.row_data = []
    · rw [if_pos h1]
      exact le_trans ih (by simp)
    · rw [if_neg h1]
      cases ho : o.outcome item
      · simpa using Nat.succ_le_succ ih
      · exact le_trans ih (by simp)
      · simp

theorem process_batch_all_ok (o : LedgerOracle) :
    ∀ l : List UpdateItem,
      (∀ i ∈ l, o.outcome i = AppendOutcome.ok ∧ i.tab_name ≠ "" ∧
        i.row_data ≠ []) →
      (process_batch_updates o l).1 = l := by
  intro l
  induction l with
  | nil => intro _; rfl
  | cons item rest ih =>
    intro h
    have hitem := h item (by simp)
    have hrest := fun i hi => h i (List.mem_cons_of_mem item hi)
    simp only [process_batch_updates]
    rw [if_neg (not_or.mpr ⟨hitem.2.1, hitem.2.2⟩), hitem.1]
    simp [ih hrest]

/-- A ledger on which every row append raises. -/
def failLedger : LedgerOracle := { outcome := fun _ => AppendOutcome.raiseErr }

/-- A ledger on which every row append succeeds. -/
def okLedger : LedgerOracle := { outcome := fun _ => AppendOutcome.ok }

/-- Two queued rows bound for the same destination tab. -/
def itemA : UpdateItem :=
  { tab_name := "DELHI_SCANS", row_data := ["r1"], timestamp := 0 }

def itemB : UpdateItem :=
  { tab_name := "DELHI_SCANS", row_data := ["r2"], timestamp := 1 }

/-- C2 counterexample: a batch whose flush fails is not requeued at the
front: after the worker cycle on a one-item queue whose append raises, the
queue is empty, not the batch again. -/
theorem C2_counterexample_no_requeue :
    (workerCycle failLedger
      { connected := true, update_queue := [itemA],
        is_running := true }).1.update_queue = [] ∧
    ([] : List UpdateItem) ≠ [itemA] := by
  exact ⟨rfl, by simp⟩

/-- C2 (amended): a batch removed for flushing is gone from the queue for
good — after one worker cycle the queue is the former queue minus the
removed batch whatever the ledger does, and on a raising append the rest of
the batch is abandoned (`([item], true)`): there is no retry, no
re-enqueue, no backoff and no lost-batch counter, and the cycle returns
normally so nothing propagates to the enqueuing caller. -/
theorem C2_failed_batch_dropped (o : LedgerOracle) (s : SheetsState)
    (item : UpdateItem) (rest : List UpdateItem) :
    (workerCycle o s).1.update_queue = s.update_queue.drop 50 ∧
    (o.outcome item = AppendOutcome.raiseErr → item.tab_name ≠ "" →
      item.row_data ≠ [] →
      process_batch_updates o (item :: rest) = ([item], true)) := by
  refine ⟨rfl, ?_⟩
  intro ho h1 h2
  simp only [process_batch_updates]
  rw [if_neg (not_or.mpr ⟨h1, h2⟩), ho]

/-- C2 witness: a two-item queue whose first append raises. -/
theorem C2_failed_batch_dropped_witness :
    (workerCycle failLedger
      { connected := true, update_queue := [itemA, itemB],
        is_running := true }).1.update_queue = [] ∧
    process_batch_updates failLedger [itemA, itemB] = ([itemA], true) := by
  have h := C2_failed_batch_dropped failLedger
    { connected := true, update_queue := [itemA, itemB], is_running := true }
    itemA [itemB]
  exact ⟨h.1.trans rfl, h.2 rfl (by decide) (by decide)⟩

/-- C8 counterexample: two tasks for the same destination produce two
`append_row` calls — one per task — not a single grouped append per
destination. -/
theorem C8_counterexample_per_item_append :
    itemA.tab_name = itemB.tab_name ∧
    (process_batch_updates okLedger [itemA, itemB]).1.length = 2 ∧
    (2 : Nat) ≠ 1 := by
  exact ⟨rfl, rfl, by decide⟩

/-- C8 (amended): each worker cycle dequeues at most 50 tasks (the first at
most 50 of the queue, the remainder stays), performs at most one
`append_row` call per dequeued task, and — when every task of the batch has
a worksheet and a truthy payload — exactly one call per task in order,
rather than one call per destination grouping. -/
theorem C8_at_most_50_one_append_per_task (o : LedgerOracle)
    (s : SheetsState) :
    (workerCycle o s).1.update_queue = s.update_queue.drop 50 ∧
    (s.update_queue.take 50).length ≤ 50 ∧
    (workerCycle o s).2.1.length ≤ (s.update_queue.take 50).length ∧
    ((∀ i ∈ s.update_queue.take 50,
        o.outcome i = AppendOutcome.ok ∧ i.tab_name ≠ "" ∧
          i.row_data ≠ []) →
      (workerCycle o s).2.1 = s.update_queue.take 50) := by
  refine ⟨rfl, ?_, ?_, ?_⟩
  · exact List.length_take_le 50 s.update_queue
  · exact process_batch_calls_le o (s.update_queue.take 50)
  · intro h
    exact process_batch_all_ok o (s.update_queue.take 50) h

/-- C8 witness: a two-item queue, every append succeeding. -/
theorem C8_at_most_50_one_append_per_task_witness :
    (workerCycle okLedger
      { connected := true, update_queue := [itemA, itemB],
        is_running := true }).2.1 = [itemA, itemB] := by
  have h := C8_at_most_50_one_append_per_task okLedger
    { connected := true, update_queue := [itemA, itemB], is_running := true }
  exact (h.2.2.2 (by decide)).trans rfl

/-- C9 counterexample: after `stop_background_updates` the service still
accepts enqueues — a subsequent `append_scan_to_sheet` returns `True` and
grows the queue. -/
theorem C9_counterexample_enqueue_after_stop :
    (append_scan_to_sheet (stop_background_updates sheets0) scan0 0).2 =
      true ∧
    (append_scan_to_sheet (stop_background_updates sheets0) scan0
      0).1.update_queue.length = 1 := by
  exact ⟨rfl, rfl⟩

/-- C9 (amended): shutdown merely clears the running flag (and joins the
worker thread with a 5-second timeout): the queue is left exactly as it was
— no drain, no logging of leftover tasks — and new enqueues are still
accepted afterwards. -/
theorem C9_stop_no_drain_still_accepts (s : SheetsState) (scan : ScanData)
    (now : Nat) :
    (stop_background_updates s).update_queue = s.update_queue ∧
    (stop_background_updates s).is_running = false ∧
    (s.connected = true →
      (append_scan_to_sheet (stop_background_updates s) scan now).2 =
        true) := by
  refine ⟨rfl, rfl, ?_⟩
  intro hc
  simp [append_scan_to_sheet, stop_background_updates, hc]

/-- C9 witness: the connected sample service. -/
theorem C9_stop_no_drain_still_accepts_witness :
    (stop_background_updates sheets0).update_queue =
      sheets0.update_queue ∧
    (stop_background_updates sheets0).is_running = false ∧
    (append_scan_to_sheet (stop_background_updates sheets0) scan0 0).2 =
      true := by
  have h := C9_stop_no_drain_still_accepts sheets0 scan0 0
  exact ⟨h.1, h.2.1, h.2.2 rfl⟩

/-! ## QR-location creation and coordinate capture

From `src/routes/supervisor_routes_full.py` (`create_automatic_qr_location`).
The inserted document carries `"lat": 0.0, "lng": 0.0` with the comment
"Will be updated automatically when guards scan" — a zero-valued sentinel,
not an absent optional coordinate. -/

/-- A QR-location document as stored by `create_automatic_qr_location`. -/
structure QRLocation where
  supervisorId : String
  supervisorArea : String
  supervisorName : String
  label : String
  lat : ℚ
  lng : ℚ
  active : Bool
  autoGenerated : Bool
  createdAt : Nat
  updatedAt : Nat
deriving DecidableEq

/-- Embedding of the data path of
`supervisor_routes_full.create_automatic_qr_location`: if a QR location for
the supervisor already exists it is returned unchanged (second component
`true`, the `"existing": True` reply); otherwise a new document is inserted
with label `"<area> Patrol Point"` and the sentinel coordinate
`lat = 0.0, lng = 0.0`. -/
def create_automatic_qr_location (existing : Option QRLocation)
    (supervisor_id supervisor_area supervisor_name : String) (now : Nat) :
    QRLocation × Bool :=
  match existing with
  | some qr => (qr, true)
  | none =>
    ({ supervisorId := supervisor_id, supervisorArea := supervisor_area,
       supervisorName := supervisor_name,
       label := supervisor_area ++ " Patrol Point",
       lat := 0, lng := 0, active := true, autoGenerated := true,
       createdAt := now, updatedAt := now }, false)

/-- Modelled from the spec: `captureIfUnset(qrId, coord)` — the atomic
compare-and-set coordinate capture of the guard scan route, which is absent
from `src/`.  Consistently with the creation route above, "coordinate
absent" is represented by the `(0, 0)` sentinel: the coordinate is set only
while it still equals the sentinel. -/
def captureIfUnset (qr : QRLocation) (lat lng : ℚ) : QRLocation × Bool :=
  if qr.lat = 0 ∧ qr.lng = 0 then
    ({ qr with lat := lat, lng := lng }, true)
  else (qr, false)

/-- C3 counterexample: a newly created QR location does not have an absent
coordinate — it carries the zero-valued sentinel coordinate `(0.0, 0.0)`. -/
theorem C3_counterexample_zero_sentinel :
    (create_automatic_qr_location none "sup1" "Delhi" "Alice" 0).1.lat = 0 ∧
    (create_automatic_qr_location none "sup1" "Delhi" "Alice" 0).1.lng =
      0 := by
  exact ⟨rfl, rfl⟩

/-- C3 (amended): a newly created QR location stores the zero-valued
sentinel coordinate `(0, 0)` denoting "uncaptured" (not an absent optional
field); once the coordinate is non-sentinel the capture operation can no
longer move it, and a capture that set a non-sentinel coordinate is itself
permanent against later captures. -/
theorem C3_sentinel_and_capture_permanence (existing : Option QRLocation)
    (sid area sname : String) (now : Nat) (qr qr2 : QRLocation)
    (la lb x y : ℚ) :
    (existing = none →
      (create_automatic_qr_location existing sid area sname now).1.lat = 0 ∧
      (create_automatic_qr_location existing sid area sname now).1.lng =
        0) ∧
    (¬(qr.lat = 0 ∧ qr.lng = 0) → captureIfUnset qr x y = (qr, false)) ∧
    (qr2.lat = 0 ∧ qr2.lng = 0 → ¬(la = 0 ∧ lb = 0) →
      captureIfUnset (captureIfUnset qr2 la lb).1 x y =
        ((captureIfUnset qr2 la lb).1, false)) := by
  refine ⟨?_, ?_, ?_⟩
  · intro he
    subst he
    exact ⟨rfl, rfl⟩
  · intro h
    simp [captureIfUnset, h]
  · intro hq hla
    simp only [captureIfUnset, if_pos hq]
    rw [if_neg]
    exact hla

/-- C3 witness: a freshly created (sentinel) location captured at `(10, 20)`
and an already-captured location probed at `(30, 40)`. -/
theorem C3_sentinel_and_capture_permanence_witness :
    ((create_automatic_qr_location none "sup1" "Delhi" "Alice" 0).1.lat =
        0 ∧
      (create_automatic_qr_location none "sup1" "Delhi" "Alice" 0).1.lng =
        0) ∧
    captureIfUnset
      { supervisorId := "sup1", supervisorArea := "Delhi",
        supervisorName := "Alice", label := "Delhi Patrol Point",
        lat := 10, lng := 20, active := true, autoGenerated := true,
        createdAt := 0, updatedAt := 0 } 30 40 =
      ({ supervisorId := "sup1", supervisorArea := "Delhi",
         supervisorName := "Alice", label := "Delhi Patrol Point",
         lat := 10, lng := 20, active := true, autoGenerated := true,
         createdAt := 0, updatedAt := 0 }, false) ∧
    captureIfUnset
      (captureIfUnset
        (create_automatic_qr_location none "sup1" "Delhi" "Alice" 0).1
        10 20).1 30 40 =
      ((captureIfUnset
        (create_automatic_qr_location none "sup1" "Delhi" "Alice" 0).1
        10 20).1, false) := by
  have h := C3_sentinel_and_capture_permanence none "sup1" "Delhi" "Alice" 0
    { supervisorId := "sup1", supervisorArea := "Delhi",
      supervisorName := "Alice", label := "Delhi Patrol Point",
      lat := 10, lng := 20, active := true, autoGenerated := true,
      createdAt := 0, updatedAt := 0 }
    (create_automatic_qr_location none "sup1" "Delhi" "Alice" 0).1
    10 20 30 40
  exact ⟨h.1 rfl, h.2.1 (by decide), h.2.2 (by decide) (by decide)⟩
